import Mathlib

/-!
Shallow embedding of `probe-rs/src/session.rs` (the Session / architecture
abstraction of the probe-rs debug tool) and proofs about its operations.

The file translates the source's data model and the bodies of
`Session::new`, `list_cores`, `attach_to_core`,
`attach_to_core_with_specific_memory`, `attach_to_memory`,
`attach_to_best_memory`, `flash_algorithms`, `memory_map` and
`setup_tracing` into pure Lean functions.  External collaborators that are
not part of the source file (the target registry, the ARM communication
interface's hardware-facing operations, ROM-table parsing, component-level
trace setup) are abstracted by their observable responses, passed in as
data or as function parameters.  A Rust `Vec` index out of range is a
panic; results are therefore reported in an `Outcome` type with a
distinguished `panic` case.
-/

/-- A memory region of the target's memory map (`config::MemoryRegion`),
abstracted to an address range. -/
structure MemoryRegion where
  range_start : Nat
  range_end : Nat
deriving DecidableEq, Repr

/-- A raw flash algorithm descriptor (`config::RawFlashAlgorithm`),
opaque to the session core. -/
structure RawFlashAlgorithm where
  token : Nat
deriving DecidableEq, Repr

/-- A core type (`core::CoreType`), opaque to the session core. -/
structure CoreType where
  token : Nat
deriving DecidableEq, Repr

/-- Chip identification info (`ArmChipInfo` / `ChipInfo`), opaque here:
only its presence or absence matters in `Session::new`. -/
structure ChipInfo where
  token : Nat
deriving DecidableEq, Repr

/-- The static target descriptor (`config::Target`): core type, memory
map, and flash algorithms. -/
structure Target where
  core_type : CoreType
  memory_map : List MemoryRegion
  flash_algorithms : List RawFlashAlgorithm
deriving DecidableEq, Repr

/-- `TargetSelector`: how the caller names the target to
`Session::new`. -/
inductive TargetSelector where
  | Unspecified (name : String)
  | Specified (target : Target)
  | Auto
deriving DecidableEq, Repr

/-- Registry errors (`config::RegistryError`); the source names
`ChipAutodetectFailed` explicitly, lookups may also miss. -/
inductive RegistryError where
  | ChipNotFound
  | ChipAutodetectFailed
deriving DecidableEq, Repr

/-- The crate error type (`Error`), restricted to the variants reachable
from `session.rs`: registry failures wrapped in `ChipNotFound`,
`CoreNotFound(n)`, errors propagated from the hardware-facing
access-port enumeration (`Probe`), and `Error::architecture_specific`
wrappings of ROM-table parse errors. -/
inductive Error where
  | ChipNotFound (e : RegistryError)
  | CoreNotFound (n : Nat)
  | Probe (code : Nat)
  | ArchitectureSpecific (code : Nat)
deriving DecidableEq, Repr

/-- A memory access port record (`arm::ap::MemoryAP`): the source reads
`.id()` and `.base_address()` from enumerated ports. -/
structure MemoryAP where
  id : Nat
  base_address : Nat
deriving DecidableEq, Repr

/-- A memory interface handle (`Memory`): either the architecture's
dedicated interface, or `Memory::new(ADIMemoryInterface::new(interface.clone(), ap))`,
a handle bound to the access-port id `ap` it was constructed with.  The
back-reference to the shared architecture session that an ADI handle
holds is not part of the handle's observable identity and is omitted. -/
inductive Memory where
  | dedicated (token : Nat)
  | adi (apId : Nat)
deriving DecidableEq, Repr

deriving instance DecidableEq for Except

/-- Modelled from the spec: the ARM communication interface
(`ArmCommunicationInterface`) lives outside this source file; §6 gives
its contract.  It is abstracted by the observable responses of the two
hardware-facing operations `session.rs` calls on it:
`dedicated_memory_interface()` and `memory_access_ports()` (the latter a
live enumeration, `ordered sequence of {id, base_address} |
CommunicationError`). -/
structure ArmCommunicationInterface where
  dedicated_memory_interface : Option Memory
  memory_access_ports : Except Error (List MemoryAP)
deriving DecidableEq, Repr

/-- Modelled from the spec: the probe is an opaque transport handle (§6);
the communication interface opened over it is determined by the probe
and the connected hardware, so the probe carries the interface's
observable behaviour. -/
structure Probe where
  dedicated_memory : Option Memory
  ap_enumeration : Except Error (List MemoryAP)
deriving DecidableEq, Repr

/-- Modelled from the spec: `ArmCommunicationInterface::new(probe)` opens
the architecture-specific communication interface over the probe. -/
def ArmCommunicationInterface.new (probe : Probe) : ArmCommunicationInterface :=
  ⟨probe.dedicated_memory, probe.ap_enumeration⟩

/-- The per-architecture session (`ArchitectureSession`): a tagged union,
today exactly one ARM variant. -/
inductive ArchitectureSession where
  | Arm (interface : ArmCommunicationInterface)
deriving DecidableEq, Repr

/-- The session aggregate (`InnerSession` behind `Rc<RefCell<..>>` in
`Session`): the resolved target plus the open architecture session.  The
embedding passes this state explicitly where the source mutates it in
place. -/
structure Session where
  target : Target
  architecture_session : ArchitectureSession
deriving DecidableEq, Repr

/-- The ARM interface of a session (the sole variant's payload). -/
def Session.arm_interface (s : Session) : ArmCommunicationInterface :=
  match s.architecture_session with
  | .Arm interface => interface

/-- A core handle (`Core`): per spec §6 each core handle carries a valid
(Session, Memory, index) triple at the moment of attachment; it is
produced by `CoreType::attach`. -/
structure Core where
  session : Session
  memory : Memory
  index : Nat
  core_type : CoreType
deriving DecidableEq, Repr

/-- Modelled from the spec: `CoreType::attach(session, memory, n)` (called
as `core_type.attach(self.clone(), memory, n)` in the source) builds the
core handle from its (Session, Memory, index) triple. -/
def CoreType.attach (ct : CoreType) (s : Session) (m : Memory) (n : Nat) : Core :=
  ⟨s, m, n, ct⟩

/-- Modelled from the spec: `core.id()` is the zero-based index the core
was attached with. -/
def Core.id (c : Core) : Nat :=
  c.index

/-- Modelled from the spec: the external target registry (§6), with both
lookups `session.rs` calls: `get_target_by_name` and
`get_target_by_chip_info`. -/
structure Registry where
  get_target_by_name : String → Except RegistryError Target
  get_target_by_chip_info : ChipInfo → Except RegistryError Target

/-- Result of a call that may also die by an unchecked `Vec` index:
`ok`, an `Error` result, or a Rust panic. -/
inductive Outcome (α : Type) where
  | ok (a : α)
  | error (e : Error)
  | panic
deriving DecidableEq, Repr

/-- Map over the `ok` case of an `Outcome`. -/
def Outcome.map {α β : Type} (f : α → β) : Outcome α → Outcome β
  | .ok a => .ok (f a)
  | .error e => .error e
  | .panic => .panic

/-- Instrumentation: the externally visible steps `Session::new` may take
while resolving a `TargetSelector`.  `Auto`'s chip-identifier read is
commented out in the source, so no constructor for it is ever emitted;
the `ChipIdentifierRead` constructor exists so that its absence from an
effect trace is a statement, not a tautology of the type. -/
inductive Effect where
  | RegistryLookupByName (name : String)
  | RegistryLookupByChip
  | ChipIdentifierRead
deriving DecidableEq, Repr

/-- `Session::new(probe, target)`: open the ARM interface over the probe,
resolve the selector (registry lookup for `Unspecified`; as-is for
`Specified`; for `Auto` the source leaves `arm_chip = None`
unconditionally — the ROM-table read is commented out — so the
`Some` branch with its registry lookup is dead and the `None` branch
returns `Error::ChipNotFound(RegistryError::ChipAutodetectFailed)`),
then wrap target and interface into the session aggregate.  The second
component records the resolution effects performed. -/
def Session.new (registry : Registry) (probe : Probe) (target : TargetSelector) :
    Except Error Session × List Effect :=
  let arm_interface := ArmCommunicationInterface.new probe
  match target with
  | .Unspecified name =>
      match registry.get_target_by_name name with
      | .ok target => (.ok ⟨target, .Arm arm_interface⟩, [.RegistryLookupByName name])
      | .error err => (.error (.ChipNotFound err), [.RegistryLookupByName name])
  | .Specified target => (.ok ⟨target, .Arm arm_interface⟩, [])
  | .Auto =>
      let arm_chip : Option ChipInfo := none
      match arm_chip with
      | some chip =>
          match registry.get_target_by_chip_info chip with
          | .ok target => (.ok ⟨target, .Arm arm_interface⟩, [.RegistryLookupByChip])
          | .error err => (.error (.ChipNotFound err), [.RegistryLookupByChip])
      | none => (.error (.ChipNotFound .ChipAutodetectFailed), [])

/-- `Session::list_cores()`: the single-element list holding the target's
core type. -/
def Session.list_cores (s : Session) : List CoreType :=
  [s.target.core_type]

/-- `Session::attach_to_memory(id)`: if the interface reports a dedicated
memory interface, return it; otherwise enumerate access ports live
(propagating the enumeration error via `?`) and build an ADI handle
bound to `maps[id].id()` — an unchecked index that panics when `id` is
out of range.  The boolean records whether the enumeration was
invoked. -/
def Session.attach_to_memory (s : Session) (id : Nat) : Outcome Memory × Bool :=
  match s.architecture_session with
  | .Arm interface =>
      match interface.dedicated_memory_interface with
      | some memory => (.ok memory, false)
      | none =>
          match interface.memory_access_ports with
          | .error e => (.error e, true)
          | .ok maps =>
              match maps.get? id with
              | some ap => (.ok (Memory.adi ap.id), true)
              | none => (.panic, true)

/-- `Session::attach_to_best_memory()`: dedicated interface when present,
otherwise an ADI handle built directly with access-port id `0` — no
enumeration, no failure path. -/
def Session.attach_to_best_memory (s : Session) : Except Error Memory :=
  match s.architecture_session with
  | .Arm interface =>
      match interface.dedicated_memory_interface with
      | some memory => .ok memory
      | none => .ok (Memory.adi 0)

/-- `Session::attach_to_core(n)`: look `n` up in `list_cores()`, erroring
with `CoreNotFound(n)` on a miss; otherwise attach the core type with
the memory resolved by `attach_to_memory(n)` (propagating its error or
panic).  The final borrow of the architecture session only returns the
core; state is unchanged on every path, so the session is returned
alongside the outcome. -/
def Session.attach_to_core (s : Session) (n : Nat) : Outcome Core × Session :=
  match (Session.list_cores s).get? n with
  | none => (.error (.CoreNotFound n), s)
  | some ct =>
      match (Session.attach_to_memory s n).1 with
      | .ok mem => (.ok (CoreType.attach ct s mem n), s)
      | .error e => (.error e, s)
      | .panic => (.panic, s)

/-- `Session::attach_to_specific_core(core_type)`: attach the given core
type with the memory resolved by `attach_to_memory(0)` and index 0. -/
def Session.attach_to_specific_core (s : Session) (ct : CoreType) : Outcome Core :=
  Outcome.map (fun mem => CoreType.attach ct s mem 0) (Session.attach_to_memory s 0).1

/-- `Session::attach_to_core_with_specific_memory(n, memory)`: look `n` up
in `list_cores()`, erroring with `CoreNotFound(n)` on a miss; use the
caller's memory handle when given, otherwise the result of
`attach_to_memory(0)` (propagating its error or panic). -/
def Session.attach_to_core_with_specific_memory (s : Session) (n : Nat)
    (memory : Option Memory) : Outcome Core :=
  match (Session.list_cores s).get? n with
  | none => .error (.CoreNotFound n)
  | some ct =>
      match memory with
      | some m => .ok (CoreType.attach ct s m n)
      | none =>
          match (Session.attach_to_memory s 0).1 with
          | .ok m => .ok (CoreType.attach ct s m n)
          | .error e => .error e
          | .panic => .panic

/-- `Session::flash_algorithms()`: a clone of the target's flash
algorithm list; the session state is untouched. -/
def Session.flash_algorithms (s : Session) : List RawFlashAlgorithm × Session :=
  (s.target.flash_algorithms, s)

/-- `Session::memory_map()`: a clone of the target's memory map; the
session state is untouched. -/
def Session.memory_map (s : Session) : List MemoryRegion × Session :=
  (s.target.memory_map, s)

/-- The parsed ROM table (`romtable::RomTable`): an ordered sequence of
component entries, each with a component address. -/
structure RomTable where
  component_addresses : List Nat
deriving DecidableEq, Repr

/-- `Session::setup_tracing(core)`: enumerate access ports (propagating
the enumeration error), read `maps[core.id()].base_address()` — an
unchecked index that panics when `core.id()` is out of range — parse the
ROM table at that base address (mapping a parse failure through
`Error::architecture_specific`), and hand the table to component-level
trace setup.  `try_parse` and `component_setup` stand for the external
`RomTable::try_parse` and `component::setup_tracing` (spec §4.5, §4.6),
which are outside this source file. -/
def Session.setup_tracing (try_parse : Core → Nat → Except Nat RomTable)
    (component_setup : Core → RomTable → Except Error Unit)
    (s : Session) (core : Core) : Outcome Unit :=
  match s.architecture_session with
  | .Arm interface =>
      match interface.memory_access_ports with
      | .error e => .error e
      | .ok maps =>
          match maps.get? (Core.id core) with
          | none => .panic
          | some ap =>
              match try_parse core ap.base_address with
              | .error e => .error (.ArchitectureSpecific e)
              | .ok rom_table =>
                  match component_setup core rom_table with
                  | .ok u => .ok u
                  | .error e => .error e

/-! ## Concrete session states used as fixtures -/

/-- A session with no dedicated memory interface whose live enumeration
yields a single access port with id 5. -/
def sessionApFive : Session :=
  ⟨⟨⟨0⟩, [], []⟩, .Arm ⟨none, .ok [⟨5, 256⟩]⟩⟩

/-- A session with no dedicated memory interface whose live enumeration
fails with a transport error. -/
def sessionEnumFails : Session :=
  ⟨⟨⟨0⟩, [], []⟩, .Arm ⟨none, .error (.Probe 7)⟩⟩

/-- A session with a dedicated memory interface. -/
def sessionDedicated : Session :=
  ⟨⟨⟨1⟩, [], []⟩, .Arm ⟨some (Memory.dedicated 9), .ok []⟩⟩

/-- A session with no dedicated memory interface whose live enumeration
succeeds with no access ports at all. -/
def sessionNoPorts : Session :=
  ⟨⟨⟨0⟩, [], []⟩, .Arm ⟨none, .ok []⟩⟩

/-- A second copy of the one-port state, reserved for the panic claim. -/
def sessionOnePort : Session :=
  ⟨⟨⟨2⟩, [], []⟩, .Arm ⟨none, .ok [⟨5, 256⟩]⟩⟩

/-- A core handle whose index (3) exceeds the single enumerated port of
`sessionOnePort`. -/
def coreIndexThree : Core :=
  ⟨sessionOnePort, Memory.adi 5, 3, ⟨2⟩⟩

/-- A ROM-table parser stub that always succeeds with an empty table. -/
def parseAlwaysOk : Core → Nat → Except Nat RomTable :=
  fun _ _ => .ok ⟨[]⟩

/-- A component-setup stub that always succeeds. -/
def componentSetupAlwaysOk : Core → RomTable → Except Error Unit :=
  fun _ _ => .ok ()

/-! ## Claims -/

/-- Claim C1, counterexample: on a session with no dedicated memory
interface whose enumeration yields one port with id 5,
`attach_to_core_with_specific_memory(0, None)` binds the core to the ADI
handle on access-port id 5 (it calls `attach_to_memory(0)`), while
`attach_to_best_memory()` returns the ADI handle on access-port id 0 —
so the two memory resolutions are not identical. -/
theorem attach_with_none_memory_differs_from_best_memory :
    Session.attach_to_core_with_specific_memory sessionApFive 0 none
        = Outcome.ok (CoreType.attach ⟨0⟩ sessionApFive (Memory.adi 5) 0)
      ∧ Session.attach_to_best_memory sessionApFive = Except.ok (Memory.adi 0)
      ∧ Memory.adi 5 ≠ Memory.adi 0 :=
  ⟨rfl, rfl, by decide⟩

/-- Claim C1, amended: for every in-range core index `n`,
`attach_to_core_with_specific_memory(n, None)` resolves its memory as
`attach_to_memory(0)` does (dedicated interface when present, otherwise
the port at position 0 of a live enumeration, propagating enumeration
failure or panic), and binds the returned core to that handle. -/
theorem attach_with_none_memory_uses_attach_to_memory_zero
    (s : Session) (n : Nat) (h : n < (Session.list_cores s).length) :
    Session.attach_to_core_with_specific_memory s n none =
      Outcome.map (fun m => CoreType.attach s.target.core_type s m n)
        (Session.attach_to_memory s 0).1 := by
  have hn : n = 0 := by
    simpa [Session.list_cores] using Nat.lt_one_iff.mp (by simpa [Session.list_cores] using h)
  subst hn
  cases hmem : (Session.attach_to_memory s 0).1 <;>
    simp [Session.attach_to_core_with_specific_memory, Session.list_cores, Outcome.map, hmem]

/-- Claim C1, witness for the amended theorem at a concrete session. -/
theorem attach_with_none_memory_uses_attach_to_memory_zero_witness :
    Session.attach_to_core_with_specific_memory sessionApFive 0 none =
      Outcome.map (fun m => CoreType.attach sessionApFive.target.core_type sessionApFive m 0)
        (Session.attach_to_memory sessionApFive 0).1 :=
  attach_with_none_memory_uses_attach_to_memory_zero sessionApFive 0 (by decide)

/-- Claim C2, counterexample: on a session with no dedicated memory
interface whose live enumeration fails, `attach_to_best_memory()`
succeeds with the ADI handle on access-port id 0 while
`attach_to_memory(0)` propagates the enumeration error — the two calls
do not have the same result or the same error behaviour. -/
theorem best_memory_differs_from_attach_to_memory_zero :
    (Session.arm_interface sessionEnumFails).dedicated_memory_interface = none
      ∧ Session.attach_to_best_memory sessionEnumFails = Except.ok (Memory.adi 0)
      ∧ (Session.attach_to_memory sessionEnumFails 0).1 = Outcome.error (Error.Probe 7) :=
  ⟨rfl, rfl, rfl⟩

/-- Claim C2, amended: on a session with no dedicated memory interface,
`attach_to_best_memory()` always succeeds with the ADI handle built
directly on access-port id 0, performing no enumeration — it does not in
general coincide with `attach_to_memory(0)`, which enumerates live and
can fail or bind a port whose id differs from 0. -/
theorem best_memory_no_dedicated_is_ap_id_zero (s : Session)
    (h : (Session.arm_interface s).dedicated_memory_interface = none) :
    Session.attach_to_best_memory s = Except.ok (Memory.adi 0) := by
  obtain ⟨t, arch⟩ := s
  cases arch with
  | Arm interface =>
      simp only [Session.arm_interface] at h
      simp [Session.attach_to_best_memory, h]

/-- Claim C2, witness for the amended theorem at a concrete session. -/
theorem best_memory_no_dedicated_is_ap_id_zero_witness :
    Session.attach_to_best_memory sessionNoPorts = Except.ok (Memory.adi 0) :=
  best_memory_no_dedicated_is_ap_id_zero sessionNoPorts rfl

/-- Claim C3: when the architecture session reports a dedicated memory
interface, `attach_to_memory(id)` returns exactly that interface for
every index `id`, and the access-port enumeration is not invoked on that
call path (the instrumentation boolean is false). -/
theorem attach_to_memory_prefers_dedicated (s : Session) (id : Nat) (m : Memory)
    (h : (Session.arm_interface s).dedicated_memory_interface = some m) :
    Session.attach_to_memory s id = (Outcome.ok m, false) := by
  obtain ⟨t, arch⟩ := s
  cases arch with
  | Arm interface =>
      simp only [Session.arm_interface] at h
      simp [Session.attach_to_memory, h]

/-- Claim C3, witness at a concrete session with a dedicated interface
and an arbitrary large index. -/
theorem attach_to_memory_prefers_dedicated_witness :
    Session.attach_to_memory sessionDedicated 42 = (Outcome.ok (Memory.dedicated 9), false) :=
  attach_to_memory_prefers_dedicated sessionDedicated 42 (Memory.dedicated 9) rfl

/-- Claim C4, counterexample: on a session with no dedicated memory
interface whose live enumeration succeeds with an empty port list,
`attach_to_memory(0)` neither fails with an enumeration error nor
returns a memory handle — the unchecked index `maps[0]` panics — so the
claim as stated (quantified over every index) fails. -/
theorem attach_to_memory_enumeration_ok_but_panics :
    (Session.arm_interface sessionNoPorts).dedicated_memory_interface = none
      ∧ (Session.arm_interface sessionNoPorts).memory_access_ports = Except.ok []
      ∧ (Session.attach_to_memory sessionNoPorts 0).1 = Outcome.panic :=
  ⟨rfl, rfl, rfl⟩

/-- Claim C4, amended: on a session with no dedicated memory interface,
if the live enumeration fails then `attach_to_memory(id)` fails with
that same enumeration error, and if it succeeds and position `id` exists
in the result then the call returns a memory handle bound to the id of
the access port at position `id`; in both cases the enumeration was
invoked during the call.  (For `id` beyond the enumeration the call
panics; see the unchecked-index claim.) -/
theorem attach_to_memory_no_dedicated_policy (s : Session) (id : Nat)
    (hded : (Session.arm_interface s).dedicated_memory_interface = none) :
    (∀ e, (Session.arm_interface s).memory_access_ports = .error e →
        Session.attach_to_memory s id = (.error e, true))
    ∧ (∀ maps ap, (Session.arm_interface s).memory_access_ports = .ok maps →
        maps.get? id = some ap →
        Session.attach_to_memory s id = (.ok (Memory.adi ap.id), true)) := by
  obtain ⟨t, arch⟩ := s
  cases arch with
  | Arm interface =>
      simp only [Session.arm_interface] at hded
      constructor
      · intro e henum
        simp only [Session.arm_interface] at henum
        unfold Session.attach_to_memory
        simp only [hded, henum]
      · intro maps ap henum hget
        simp only [Session.arm_interface] at henum
        unfold Session.attach_to_memory
        simp only [hded, henum, hget]

/-- Claim C4, witness: both branches of the amended theorem at concrete
sessions (a failing enumeration, and a one-port enumeration bound at
position 0). -/
theorem attach_to_memory_no_dedicated_policy_witness :
    Session.attach_to_memory sessionEnumFails 0 = (Outcome.error (Error.Probe 7), true)
      ∧ Session.attach_to_memory sessionApFive 0 = (Outcome.ok (Memory.adi 5), true) :=
  ⟨(attach_to_memory_no_dedicated_policy sessionEnumFails 0 rfl).1 (Error.Probe 7) rfl,
   (attach_to_memory_no_dedicated_policy sessionApFive 0 rfl).2 [⟨5, 256⟩] ⟨5, 256⟩ rfl rfl⟩

/-- Claim C5: for every index `n` outside the range of `list_cores()`,
`attach_to_core(n)` fails with `CoreNotFound(n)` and returns the session
state (target descriptor and architecture session) unchanged. -/
theorem attach_to_core_out_of_range (s : Session) (n : Nat)
    (h : ¬ n < (Session.list_cores s).length) :
    Session.attach_to_core s n = (Outcome.error (Error.CoreNotFound n), s) := by
  have hget : (Session.list_cores s).get? n = none :=
    List.get?_eq_none.mpr (Nat.le_of_not_lt h)
  unfold Session.attach_to_core
  simp only [hget]

/-- Claim C5, witness at a concrete session and the out-of-range index
5. -/
theorem attach_to_core_out_of_range_witness :
    Session.attach_to_core sessionDedicated 5
      = (Outcome.error (Error.CoreNotFound 5), sessionDedicated) :=
  attach_to_core_out_of_range sessionDedicated 5 (by decide)

/-- Claim C6: for every registry and every probe, `Session::new` with
`TargetSelector::Auto` fails with exactly
`Error::ChipNotFound(RegistryError::ChipAutodetectFailed)` — the
distinct autodetect-failure kind, never a generic error — and produces
no session. -/
theorem session_new_auto_fails_with_chip_autodetect (registry : Registry) (probe : Probe) :
    (Session.new registry probe .Auto).1
      = Except.error (Error.ChipNotFound RegistryError.ChipAutodetectFailed) :=
  rfl

/-- Claim C7: for every registry and every probe — i.e. regardless of the
connected hardware — `Session::new` with `TargetSelector::Auto` returns
the autodetect failure with an empty effect trace: no chip-identifier
read is attempted and no registry lookup by chip identity is performed
(the `Some`-chip branch is dead, `arm_chip` being unconditionally
`None`). -/
theorem session_new_auto_unconditionally_fails (registry : Registry) (probe : Probe) :
    Session.new registry probe .Auto
      = (Except.error (Error.ChipNotFound RegistryError.ChipAutodetectFailed), []) :=
  rfl

/-- Claim C9: for every registry, probe and target, constructing a
session with `TargetSelector::Specified(target)` succeeds, stores the
target unmodified, and `memory_map()` / `flash_algorithms()` return
exactly the stored lists in order while leaving the session state
unchanged (so the target descriptor is identical after any sequence of
these calls). -/
theorem specified_target_memory_map_unmodified (registry : Registry) (probe : Probe)
    (t : Target) :
    ∃ s : Session, (Session.new registry probe (.Specified t)).1 = Except.ok s
      ∧ s.target = t
      ∧ Session.memory_map s = (t.memory_map, s)
      ∧ Session.flash_algorithms s = (t.flash_algorithms, s) :=
  ⟨⟨t, .Arm (ArmCommunicationInterface.new probe)⟩, rfl, rfl, rfl, rfl⟩

/-- Claim C8, counterexample: on a session with no dedicated memory
interface whose live enumeration succeeds with exactly one port,
`attach_to_memory(1)` panics (the unchecked index `maps[1]`), and
`setup_tracing` with a core whose id is 3 panics (the unchecked index
`maps[core.id()]`) even though all external collaborators succeed — the
out-of-range positions are not handled by returning an error. -/
theorem out_of_range_access_port_index_panics :
    (Session.arm_interface sessionOnePort).memory_access_ports = Except.ok [⟨5, 256⟩]
      ∧ (Session.attach_to_memory sessionOnePort 1).1 = Outcome.panic
      ∧ Session.setup_tracing parseAlwaysOk componentSetupAlwaysOk sessionOnePort coreIndexThree
          = Outcome.panic :=
  ⟨rfl, rfl, rfl⟩

/-- Claim C8, amended: on a session with no dedicated memory interface,
when the live enumeration succeeds with fewer than `id + 1` ports,
`attach_to_memory(id)` panics via the unchecked index `maps[id]`; and
for every enumeration result with at most `core.id()` ports,
`setup_tracing(core)` panics via the unchecked index `maps[core.id()]`
whatever the ROM-table parser and component setup would do. -/
theorem out_of_range_access_port_index_panic_policy (s : Session) (id : Nat)
    (maps : List MemoryAP)
    (hded : (Session.arm_interface s).dedicated_memory_interface = none)
    (henum : (Session.arm_interface s).memory_access_ports = .ok maps)
    (hlen : maps.length ≤ id) :
    (Session.attach_to_memory s id).1 = Outcome.panic
    ∧ ∀ (tp : Core → Nat → Except Nat RomTable) (cs : Core → RomTable → Except Error Unit)
        (core : Core), maps.length ≤ Core.id core →
        Session.setup_tracing tp cs s core = Outcome.panic := by
  obtain ⟨t, arch⟩ := s
  cases arch with
  | Arm interface =>
      simp only [Session.arm_interface] at hded henum
      have hget : maps.get? id = none := List.get?_eq_none.mpr hlen
      constructor
      · unfold Session.attach_to_memory
        simp only [hded, henum, hget]
      · intro tp cs core hcore
        have hgetc : maps.get? (Core.id core) = none := List.get?_eq_none.mpr hcore
        unfold Session.setup_tracing
        simp only [henum, hgetc]

/-- Claim C8, witness for the amended theorem: both conjuncts at the
concrete one-port session. -/
theorem out_of_range_access_port_index_panic_policy_witness :
    (Session.attach_to_memory sessionOnePort 2).1 = Outcome.panic
      ∧ Session.setup_tracing parseAlwaysOk componentSetupAlwaysOk sessionOnePort coreIndexThree
          = Outcome.panic :=
  ⟨(out_of_range_access_port_index_panic_policy sessionOnePort 2 [⟨5, 256⟩] rfl rfl
      (by decide)).1,
   (out_of_range_access_port_index_panic_policy sessionOnePort 2 [⟨5, 256⟩] rfl rfl
      (by decide)).2 parseAlwaysOk componentSetupAlwaysOk coreIndexThree (by decide)⟩
